import Mathlib

/-!
Verification development for a multi-provider LLM chat CLI
(`perplexity_request.py`, `simple_request/openai_request.py`,
`simple_request/groq_requests.py`, `simple_request/anthropic_request.py`,
`simple_request/gemini_req.py`).

The Python classes keep three pieces of state per session: a conversation
history (list of role/content dicts), a `current_config` dict of
heterogeneously typed values, and an API key read from the environment at
construction.  We embed the history as a list of `Message`, the config as an
association list over a dynamic value type `CVal` (mirroring the Python dict,
whose values change type under the CLI update commands), and the
network/stream as explicit outcome parameters threaded into the send
functions.  Requests bodies are association lists of `WireVal`.
-/

namespace AIChat

/-- Message roles used by the chat scripts (the `role` field of the
history/request dicts). -/
inductive Role
  | user
  | assistant
  | system
deriving DecidableEq

/-- One entry of `conversation_history` or of a request message array:
a `role`/`content` dict; Perplexity responses may also carry a `citations`
list, absent elsewhere (normalised to `[]`). -/
structure Message where
  role : Role
  content : String
  citations : List String
deriving DecidableEq

/-- `conversation_history` : ordered list of messages. -/
abbrev Conversation := List Message

/-- `10 ^ n` on `Int` by structural recursion (kernel-reducible, unlike the
monoid power). -/
def pow10 : Nat → Int
  | 0 => 1
  | n + 1 => 10 * pow10 n

/-- A Python float as it occurs in this repository: always a decimal literal,
embedded exactly as `mant / 10 ^ scale`.  Every float reaching a comparison
here is a short decimal, where this embedding agrees with binary floating
point. -/
structure PyFloat where
  mant : Int
  scale : Nat
deriving DecidableEq

/-- Numeric order on embedded floats: `a ≤ b`. -/
def PyFloat.le (a b : PyFloat) : Bool :=
  a.mant * pow10 b.scale ≤ b.mant * pow10 a.scale

/-- Numeric strict order on embedded floats: `a < b`. -/
def PyFloat.lt (a b : PyFloat) : Bool :=
  a.mant * pow10 b.scale < b.mant * pow10 a.scale

/-- The float written `n` with no fractional digits. -/
def PyFloat.ofInt (n : Int) : PyFloat := ⟨n, 0⟩

/-- Dynamic Python value as stored in `current_config`: the CLI update paths
store strings, floats, ints, bools or `None`. -/
inductive CVal
  | str (s : String)
  | num (q : PyFloat)
  | int (n : Int)
  | bool (b : Bool)
  | null
deriving DecidableEq

/-- Python truthiness of a `CVal` (`if value:`). -/
def CVal.truthy : CVal → Bool
  | .str s => !s.isEmpty
  | .num q => q.mant != 0
  | .int n => n != 0
  | .bool b => b
  | .null => false

/-- Whether a config value is a float (used to state that the update paths
store raw strings rather than coerced numbers). -/
def CVal.isNum : CVal → Bool
  | .num _ => true
  | _ => false

/-- Values appearing in a wire request body (JSON payload). -/
inductive WireVal
  | str (s : String)
  | num (q : PyFloat)
  | int (n : Int)
  | bool (b : Bool)
  | msgs (l : List Message)
  | strs (l : List String)
  | null
deriving DecidableEq

/-- Embedding of a config value into a request body value (the builders copy
`current_config` entries straight into the payload dict). -/
def CVal.toWire : CVal → WireVal
  | .str s => .str s
  | .num q => .num q
  | .int n => .int n
  | .bool b => .bool b
  | .null => .null

/-- A `current_config` dict: association list preserving insertion order,
as Python dicts do. -/
abbrev Config := List (String × CVal)

/-- `key in current_config` (Python membership test on the dict keys). -/
def cfgHasKey (cfg : Config) (k : String) : Bool :=
  cfg.any (fun p => p.1 == k)

/-- `current_config[key]` lookup. The embedding only reads keys that are
present (every Python read in the modelled paths is on a key of the default
dict, and the update paths assign only existing keys), so the `.null`
fallback for a missing key is never hit by the theorems below. -/
def cfgGet (cfg : Config) (k : String) : CVal :=
  match cfg.find? (fun p => p.1 == k) with
  | some p => p.2
  | none => .null

/-- `current_config[key] = value` for a key already present: Python dict
assignment to an existing key keeps its position. -/
def cfgSet (cfg : Config) (k : String) (v : CVal) : Config :=
  cfg.map (fun p => if p.1 == k then (k, v) else p)

/-- Request-body dict lookup. -/
def bodyLookup (b : List (String × WireVal)) (k : String) : Option WireVal :=
  (b.find? (fun p => p.1 == k)).map Prod.snd

/-- Whether a request body carries a given field. -/
def bodyHasKey (b : List (String × WireVal)) (k : String) : Bool :=
  b.any (fun p => p.1 == k)

/-- Decimal digit value, for the Python `float`/`int` coercions used by the
config update paths. -/
def digitVal (c : Char) : Option Nat :=
  if c.isDigit then some (c.toNat - 48) else none

/-- Parse a nonempty all-digit string. -/
def parseDigits (cs : List Char) : Option Nat :=
  if cs.isEmpty then none
  else cs.foldl (fun acc c => acc.bind (fun a => (digitVal c).map (fun d => a * 10 + d))) (some 0)

/-- Magnitude of a Python decimal float literal (`"3"`, `"3.5"`, `".5"`,
`"5."`). Scientific notation and the special floats are not used by any
config value in the repository and are not modelled. -/
def pyFloatMag (cs : List Char) : Option PyFloat :=
  let w := cs.takeWhile (fun c => c != '.')
  match cs.dropWhile (fun c => c != '.') with
  | [] => (parseDigits w).map (fun n => ⟨(n : Int), 0⟩)
  | _ :: f =>
    if f.contains '.' then none
    else if w.isEmpty && f.isEmpty then none
    else
      match (if w.isEmpty then some 0 else parseDigits w),
            (if f.isEmpty then some 0 else parseDigits f) with
      | some a, some b => some ⟨(a : Int) * pow10 f.length + (b : Int), f.length⟩
      | _, _ => none

/-- Python `float(value)` on the decimal strings reaching the config paths;
`none` models the `ValueError` raised on non-numeric input. -/
def pyFloat (s : String) : Option PyFloat :=
  match s.toList with
  | '-' :: rest => (pyFloatMag rest).map (fun q => ⟨-q.mant, q.scale⟩)
  | '+' :: rest => pyFloatMag rest
  | _ => pyFloatMag s.toList

/-- Python `int(value)`; `none` models the `ValueError` on non-integer input
(including `"none"` and `"3.5"`). -/
def pyInt (s : String) : Option Int :=
  match s.toList with
  | '-' :: rest => (parseDigits rest).map (fun n => -(n : Int))
  | '+' :: rest => (parseDigits rest).map (fun n => (n : Int))
  | _ => (parseDigits s.toList).map (fun n => (n : Int))

/-- Python `value.lower()` (ASCII, which covers every compared literal). -/
def pyLower (s : String) : String :=
  String.mk (s.toList.map Char.toLower)

/-- The `pt-br` entry of the `system_messages` dict shared verbatim by the
Perplexity, OpenAI, Groq and Gemini classes. -/
def sysMsgPtBr : String :=
  "Você é um assistente prestativo. Responda sempre em português do Brasil de forma clara e natural."

/-- The `en` entry of the shared `system_messages` dict. -/
def sysMsgEn : String :=
  "You are a helpful assistant. Always respond in English in a clear and natural way."

/-- The `system_messages` dict shared verbatim by the Perplexity, OpenAI,
Groq and Gemini classes, indexed by `current_config['language']`; `none`
models the `KeyError` on any other language value. -/
def systemMessagesCommon : CVal → Option String
  | .str "pt-br" => some sysMsgPtBr
  | .str "en" => some sysMsgEn
  | _ => none

/-- `AnthropicChat`: the default `system` config entry. -/
def anthropicSystemDefault : String :=
  "Você é um prestativo assistente. Assuma o papel de especialista na pergunta realizada e responda."

/-- `PerplexityChat.available_models`. -/
def perplexityAvailableModels : List String :=
  ["llama-3.1-sonar-small-128k-chat",
   "llama-3.1-sonar-large-128k-chat",
   "llama-3.1-sonar-small-128k-online",
   "llama-3.1-sonar-large-128k-online",
   "llama-3.1-sonar-huge-128k-online"]

/-- `AnthropicChat.available_models` (categories flattened in declaration
order). -/
def anthropicAvailableModels : List String :=
  ["claude-3-sonnet-20240229", "claude-3-sonnet",
   "claude-3-haiku-20240307", "claude-3-haiku"]

/-- `GroqChat.available_models` (categories flattened in declaration
order). -/
def groqAvailableModels : List String :=
  ["gemma2-9b-it", "gemma-7b-it",
   "llama3-groq-70b-8192-tool-use-preview", "llama3-groq-8b-8192-tool-use-preview",
   "llama-3.1-70b-versatile", "llama-3.1-70b-specdec", "llama-3.1-8b-instant",
   "llama-3.2-1b-preview", "llama-3.2-3b-preview",
   "mixtral-8x7b-32768"]

/-- `GeminiChat.available_models`. -/
def geminiAvailableModels : List String :=
  ["gemini-1.5-pro", "gemini-1.5-flash", "gemini-1.5-flash-8b"]

/-- `PerplexityChat.current_config` defaults. -/
def perplexityDefaultConfig : Config :=
  [("model", .str "llama-3.1-sonar-small-128k-online"),
   ("temperature", .num ⟨2, 1⟩),
   ("top_p", .num ⟨9, 1⟩),
   ("top_k", .int 0),
   ("max_tokens", .null),
   ("presence_penalty", .int 0),
   ("frequency_penalty", .int 1),
   ("return_citations", .bool true),
   ("return_related_questions", .bool false),
   ("search_recency_filter", .null),
   ("language", .str "pt-br")]

/-- `OpenAIChat.current_config` defaults. -/
def openaiDefaultConfig : Config :=
  [("model", .str "gpt-3.5-turbo"),
   ("temperature", .num ⟨7, 1⟩),
   ("top_p", .num ⟨10, 1⟩),
   ("max_tokens", .null),
   ("presence_penalty", .int 0),
   ("frequency_penalty", .int 0),
   ("stream", .bool true),
   ("language", .str "pt-br")]

/-- `GroqChat.current_config` defaults. -/
def groqDefaultConfig : Config :=
  [("model", .str "mixtral-8x7b-32768"),
   ("temperature", .num ⟨7, 1⟩),
   ("top_p", .num ⟨10, 1⟩),
   ("max_tokens", .null),
   ("stream", .bool true),
   ("language", .str "pt-br")]

/-- `AnthropicChat.current_config` defaults. -/
def anthropicDefaultConfig : Config :=
  [("model", .str "claude-3-sonnet"),
   ("temperature", .num ⟨7, 1⟩),
   ("max_tokens", .int 1000),
   ("system", .str anthropicSystemDefault),
   ("language", .str "pt-br")]

/-- `GeminiChat.current_config` defaults. -/
def geminiDefaultConfig : Config :=
  [("model", .str "gemini-1.5-pro"),
   ("temperature", .num ⟨7, 1⟩),
   ("top_k", .int 40),
   ("top_p", .num ⟨95, 2⟩),
   ("max_tokens", .int 2048),
   ("language", .str "pt-br")]

/-- `PerplexityChat.create_request_body` with the system message already
resolved: the message array is the synthesized system message followed by the
conversation; `max_tokens` is added only when not `None`, and
`search_recency_filter` only when truthy (the two trailing conditional
fields of the source, appended in source order). -/
def perplexityBodyCore (cfg : Config) (sys : String) (messages : Conversation) :
    List (String × WireVal) :=
  [("model", (cfgGet cfg "model").toWire),
   ("messages", WireVal.msgs (⟨Role.system, sys, []⟩ :: messages)),
   ("temperature", (cfgGet cfg "temperature").toWire),
   ("top_p", (cfgGet cfg "top_p").toWire),
   ("top_k", (cfgGet cfg "top_k").toWire),
   ("presence_penalty", (cfgGet cfg "presence_penalty").toWire),
   ("frequency_penalty", (cfgGet cfg "frequency_penalty").toWire),
   ("return_citations", (cfgGet cfg "return_citations").toWire),
   ("return_related_questions", (cfgGet cfg "return_related_questions").toWire)]
  ++ (if cfgGet cfg "max_tokens" ≠ CVal.null
      then [("max_tokens", (cfgGet cfg "max_tokens").toWire)] else [])
  ++ (if (cfgGet cfg "search_recency_filter").truthy
      then [("search_recency_filter", (cfgGet cfg "search_recency_filter").toWire)] else [])

/-- `PerplexityChat.create_request_body`: resolves
`system_messages[current_config['language']]` (`none` is the `KeyError`
path) and builds the body. -/
def perplexityCreateRequestBody (cfg : Config) (messages : Conversation) :
    Option (List (String × WireVal)) :=
  (systemMessagesCommon (cfgGet cfg "language")).map
    (fun sys => perplexityBodyCore cfg sys messages)

/-- `OpenAIChat.create_chat_params` with the system message resolved. -/
def openaiParamsCore (cfg : Config) (sys : String) (messages : Conversation) :
    List (String × WireVal) :=
  [("model", (cfgGet cfg "model").toWire),
   ("messages", WireVal.msgs (⟨Role.system, sys, []⟩ :: messages)),
   ("temperature", (cfgGet cfg "temperature").toWire),
   ("top_p", (cfgGet cfg "top_p").toWire),
   ("presence_penalty", (cfgGet cfg "presence_penalty").toWire),
   ("frequency_penalty", (cfgGet cfg "frequency_penalty").toWire),
   ("stream", (cfgGet cfg "stream").toWire)]
  ++ (if cfgGet cfg "max_tokens" ≠ CVal.null
      then [("max_tokens", (cfgGet cfg "max_tokens").toWire)] else [])

/-- `OpenAIChat.create_chat_params`. -/
def openaiCreateChatParams (cfg : Config) (messages : Conversation) :
    Option (List (String × WireVal)) :=
  (systemMessagesCommon (cfgGet cfg "language")).map
    (fun sys => openaiParamsCore cfg sys messages)

/-- `GroqChat.create_chat_params` with the system message resolved. -/
def groqParamsCore (cfg : Config) (sys : String) (messages : Conversation) :
    List (String × WireVal) :=
  [("model", (cfgGet cfg "model").toWire),
   ("messages", WireVal.msgs (⟨Role.system, sys, []⟩ :: messages)),
   ("temperature", (cfgGet cfg "temperature").toWire),
   ("top_p", (cfgGet cfg "top_p").toWire),
   ("stream", (cfgGet cfg "stream").toWire)]
  ++ (if cfgGet cfg "max_tokens" ≠ CVal.null
      then [("max_tokens", (cfgGet cfg "max_tokens").toWire)] else [])

/-- `GroqChat.create_chat_params`. -/
def groqCreateChatParams (cfg : Config) (messages : Conversation) :
    Option (List (String × WireVal)) :=
  (systemMessagesCommon (cfgGet cfg "language")).map
    (fun sys => groqParamsCore cfg sys messages)

/-- `AnthropicChat.create_chat_params`: the message array is the conversation
as stored (no system entry is prepended); the system prompt travels in a
separate `system` field taken from `current_config['system']` (not selected
by `language`), and `max_tokens` is always present. -/
def anthropicCreateChatParams (cfg : Config) (messages : Conversation) :
    List (String × WireVal) :=
  [("model", (cfgGet cfg "model").toWire),
   ("messages", WireVal.msgs messages),
   ("temperature", (cfgGet cfg "temperature").toWire),
   ("max_tokens", (cfgGet cfg "max_tokens").toWire),
   ("system", (cfgGet cfg "system").toWire)]

/-- Role of the first entry of the `messages` field of a request body. -/
def wireFirstRole (b : List (String × WireVal)) : Option Role :=
  match bodyLookup b "messages" with
  | some (.msgs (m :: _)) => some m.role
  | _ => none

/-- Outcome of one `update_config(**kwargs)` call: the (possibly partially)
updated config, the unknown keys warned about (in encounter order), and the
message of the `ValueError` that aborted the loop, if any.  The config keeps
the assignments made before the raise, exactly as the in-place Python dict
mutation does. -/
structure UpdateResult where
  config : Config
  ignored : List String
  err : Option String
deriving DecidableEq

/-- Shared shape of `update_config` in the Anthropic, Groq and Gemini
classes: iterate the kwargs in order; unknown keys are warned and skipped;
known keys are validated (raising aborts the whole loop) and then assigned
the RAW value — the kwargs arrive as strings from the CLI `config k=v`
command, and the methods never coerce before storing. -/
def updateConfigWith (validate : String → String → Option String) :
    Config → List (String × String) → UpdateResult
  | cfg, [] => ⟨cfg, [], none⟩
  | cfg, (k, v) :: rest =>
    if cfgHasKey cfg k then
      match validate k v with
      | some e => ⟨cfg, [], some e⟩
      | none => updateConfigWith validate (cfgSet cfg k (.str v)) rest
    else
      let r := updateConfigWith validate cfg rest
      ⟨r.config, k :: r.ignored, r.err⟩

/-- `AnthropicChat.update_config` per-key validation: model must be in the
declared list; `float(value)` of temperature must parse and lie in [0, 1];
`int(value)` of max_tokens must parse and be positive.  A parse failure is
the `ValueError` raised by the coercion itself. -/
def anthropicValidate (key value : String) : Option String :=
  if key = "model" then
    if anthropicAvailableModels.contains value then none
    else some "Modelo nao disponivel"
  else if key = "temperature" then
    match pyFloat value with
    | none => some "could not convert string to float"
    | some t =>
      if (PyFloat.ofInt 0).le t && t.le (PyFloat.ofInt 1) then none
      else some "Temperature deve estar entre 0 e 1"
  else if key = "max_tokens" then
    match pyInt value with
    | none => some "invalid literal for int"
    | some n => if n ≤ 0 then some "Max tokens deve ser maior que 0" else none
  else none

/-- `AnthropicChat.update_config`. -/
def anthropicUpdateConfig : Config → List (String × String) → UpdateResult :=
  updateConfigWith anthropicValidate

/-- `GeminiChat.update_config` validation: model membership and temperature
in [0, 1]; no other key is validated. -/
def geminiValidate (key value : String) : Option String :=
  if key = "model" then
    if geminiAvailableModels.contains value then none
    else some "Modelo nao disponivel"
  else if key = "temperature" then
    match pyFloat value with
    | none => some "could not convert string to float"
    | some t =>
      if (PyFloat.ofInt 0).le t && t.le (PyFloat.ofInt 1) then none
      else some "Temperature deve estar entre 0 e 1"
  else none

/-- `GeminiChat.update_config`. -/
def geminiUpdateConfig : Config → List (String × String) → UpdateResult :=
  updateConfigWith geminiValidate

/-- `GroqChat.update_config` validation: only model membership is checked. -/
def groqValidate (key value : String) : Option String :=
  if key = "model" then
    if groqAvailableModels.contains value then none
    else some "Modelo nao disponivel"
  else none

/-- `GroqChat.update_config`. -/
def groqUpdateConfig : Config → List (String × String) → UpdateResult :=
  updateConfigWith groqValidate

/-- Per-key coercion of the `config k=v` handler in `perplexity_request.main`:
float keys are coerced with `float(value)`, int keys with `int(value)` (the
literal `none`, case-insensitive, meaning `None`), the two citation flags
compare `value.lower()` with `"true"`, and every other known key keeps the
raw string.  `none` models the exception raised by a failed coercion, which
aborts the surrounding loop. -/
def perplexityCoerce (key value : String) : Option CVal :=
  if key = "temperature" ∨ key = "top_p" ∨ key = "presence_penalty" ∨ key = "frequency_penalty" then
    (pyFloat value).map CVal.num
  else if key = "max_tokens" ∨ key = "top_k" then
    if pyLower value = "none" then some CVal.null else (pyInt value).map CVal.int
  else if key = "return_citations" ∨ key = "return_related_questions" then
    some (CVal.bool (pyLower value == "true"))
  else some (CVal.str value)

/-- The `config k=v [k=v ...]` command handler of `perplexity_request.main`:
known keys are coerced and stored (no range validation at all), unknown keys
are warned and skipped; a coercion exception aborts the loop, keeping the
assignments already made. -/
def perplexityConfigCmd : Config → List (String × String) → UpdateResult
  | cfg, [] => ⟨cfg, [], none⟩
  | cfg, (k, v) :: rest =>
    if cfgHasKey cfg k then
      match perplexityCoerce k v with
      | none => ⟨cfg, [], some "Erro ao atualizar configuracoes"⟩
      | some cv => perplexityConfigCmd (cfgSet cfg k cv) rest
    else
      let r := perplexityConfigCmd cfg rest
      ⟨r.config, k :: r.ignored, r.err⟩

/-- One unit of an OpenAI/Groq SDK event stream as consumed by the source:
only `chunk.choices[0].delta.content` is inspected, `none` being a chunk
whose delta carries no content. -/
structure StreamChunk where
  deltaContent : Option String
deriving DecidableEq

/-- The streaming loops of `OpenAIChat.send_message` and
`GroqChat.send_message`: concatenate the non-`None` delta contents in
arrival order.  There is no terminal-event handling: the loop simply ends
when the iterator does. -/
def streamAccumulate (chunks : List StreamChunk) : String :=
  chunks.foldl (fun acc c => match c.deltaContent with
    | some t => acc ++ t
    | none => acc) ""

/-- Result of one `send_message` call: the updated history and the returned
dict (error-message formatting of the source is abstracted to the raw
message: no claim depends on the text). -/
structure SendResult where
  hist : Conversation
  ret : List (String × WireVal)
deriving DecidableEq

/-- `PerplexityChat.send_message`: append the user message, then either
append the assistant message from a well-formed 2xx response and return
`content`/`citations`, or (on `requests.exceptions.RequestException`)
return an `error` dict leaving only the user message appended. -/
def perplexitySendMessage (hist : Conversation) (message : String)
    (outcome : Except String (String × List String)) : SendResult :=
  let hist1 := hist ++ [⟨Role.user, message, []⟩]
  match outcome with
  | .ok (content, citations) =>
    ⟨hist1 ++ [⟨Role.assistant, content, citations⟩],
     [("content", .str content), ("citations", .strs citations)]⟩
  | .error e => ⟨hist1, [("error", .str e)]⟩

/-- `OpenAIChat.send_message` on the streaming path (the default,
`current_config['stream'] = True`): append the user message; any exception
while building the params or creating the stream yields an `error` dict;
otherwise the concatenated deltas become the assistant message. -/
def openaiSendMessageStream (hist : Conversation) (message : String)
    (create : Except String (List StreamChunk)) : SendResult :=
  let hist1 := hist ++ [⟨Role.user, message, []⟩]
  match create with
  | .error e => ⟨hist1, [("error", .str e)]⟩
  | .ok chunks =>
    let content := streamAccumulate chunks
    ⟨hist1 ++ [⟨Role.assistant, content, []⟩],
     [("content", .str content), ("citations", .strs [])]⟩

/-- `GroqChat.send_message` on the streaming path: as OpenAI, except that an
exception raised while iterating the stream (second component of the `ok`
payload) discards the partial text from the result and returns an `error`
dict; on success the dict carries `response` and `conversation_history`. -/
def groqSendMessageStream (hist : Conversation) (message : String)
    (create : Except String (List StreamChunk × Option String)) : SendResult :=
  let hist1 := hist ++ [⟨Role.user, message, []⟩]
  match create with
  | .error e => ⟨hist1, [("error", .str e)]⟩
  | .ok (chunks, streamErr) =>
    let content := streamAccumulate chunks
    match streamErr with
    | some e => ⟨hist1, [("error", .str e)]⟩
    | none =>
      ⟨hist1 ++ [⟨Role.assistant, content, []⟩],
       [("response", .str content),
        ("conversation_history", WireVal.msgs (hist1 ++ [⟨Role.assistant, content, []⟩]))]⟩

/-- `AnthropicChat.send_message`: append the user message; a request
exception or a malformed response body yields an `error` dict; otherwise
`result['content'][0]['text']` becomes the assistant message. -/
def anthropicSendMessage (hist : Conversation) (message : String)
    (outcome : Except String String) : SendResult :=
  let hist1 := hist ++ [⟨Role.user, message, []⟩]
  match outcome with
  | .error e => ⟨hist1, [("error", .str e)]⟩
  | .ok content =>
    ⟨hist1 ++ [⟨Role.assistant, content, []⟩],
     [("response", .str content),
      ("conversation_history", WireVal.msgs (hist1 ++ [⟨Role.assistant, content, []⟩]))]⟩

/-- The Gemini response-extraction chain of `GeminiChat.send_message`: a
response body is a list of candidates, each a list of parts, a part being an
optional `text` field (`.get('text', '')` defaults the missing field to the
empty string).  `none` means the code falls through to the
`Nao foi possivel gerar uma resposta` error return. -/
def geminiExtract (candidates : List (List (Option String))) : Option String :=
  match candidates with
  | [] => none
  | parts :: _ =>
    match parts with
    | [] => none
    | p :: _ => some (p.getD "")

/-- Result of one `GeminiChat.send_message` call: Gemini is the one adapter
whose send also mutates `current_config`. -/
structure GeminiSendResult where
  config : Config
  hist : Conversation
  ret : List (String × WireVal)
deriving DecidableEq

/-- Shared tail of `GeminiChat.send_message`: the user message is appended
(`hist1`), the request is dispatched, and the response is either a transport
error, a body with extractable text (assistant message appended), or a body
without one (error dict, only the user message appended). -/
def geminiRespond (cfg : Config) (hist1 : Conversation)
    (transport : Except String (List (List (Option String)))) : GeminiSendResult :=
  match transport with
  | .error e => ⟨cfg, hist1, [("error", .str e)]⟩
  | .ok candidates =>
    match geminiExtract candidates with
    | some t =>
      ⟨cfg, hist1 ++ [⟨Role.assistant, t, []⟩],
       [("response", .str t),
        ("conversation_history", WireVal.msgs (hist1 ++ [⟨Role.assistant, t, []⟩]))]⟩
    | none => ⟨cfg, hist1, [("error", .str "Nao foi possivel gerar uma resposta.")]⟩

/-- Text path of `GeminiChat.send_message`: the system message is
concatenated into the content; an unknown language raises `KeyError` before
the user message is appended (caught by the catch-all, so an `error` dict is
returned with the history unchanged). -/
def geminiSendText (cfg : Config) (hist : Conversation) (message : String)
    (transport : Except String (List (List (Option String)))) : GeminiSendResult :=
  match systemMessagesCommon (cfgGet cfg "language") with
  | none => ⟨cfg, hist, [("error", .str "Erro inesperado: KeyError")]⟩
  | some _ => geminiRespond cfg (hist ++ [⟨Role.user, message, []⟩]) transport

/-- `GeminiChat.send_message`: a truthy `image_path` (non-`None` AND
non-empty — the source tests Python truthiness, not `is not None`) first
overwrites `current_config['model']` with `gemini-1.5-flash-8b`, then
processes the image; a processing failure raises before the user message is
appended, so the error return leaves the history unchanged but keeps the
model overwrite.  A `None` or empty path takes the text path with the
config untouched. -/
def geminiSendMessage (cfg : Config) (hist : Conversation) (message : String)
    (imagePath : Option String) (imageRes : Except String (String × String))
    (transport : Except String (List (List (Option String)))) : GeminiSendResult :=
  match imagePath with
  | some p =>
    if p = "" then geminiSendText cfg hist message transport
    else
      let cfg1 := cfgSet cfg "model" (CVal.str "gemini-1.5-flash-8b")
      match imageRes with
      | .error e => ⟨cfg1, hist, [("error", .str ("Erro inesperado: " ++ e))]⟩
      | .ok _ => geminiRespond cfg1 (hist ++ [⟨Role.user, message, []⟩]) transport
  | none => geminiSendText cfg hist message transport

/-- Iterated successful `PerplexityChat.send_message` calls: each script
entry is (user text, assistant content, citations). -/
def runOkSends (hist : Conversation) : List (String × String × List String) → Conversation
  | [] => hist
  | (u, c, cits) :: rest =>
    runOkSends (perplexitySendMessage hist u (.ok (c, cits))).hist rest

/-- Construction-time credential check shared by all five `__init__`s:
`os.getenv` yields the optional environment value, and a falsy value
(`None` or the empty string) raises `ValueError` before any session state
exists; otherwise the session owns the key. -/
def credentialInit (envVal : Option String) (errMsg : String) : Except String String :=
  match envVal with
  | none => .error errMsg
  | some k => if k = "" then .error errMsg else .ok k

/-- `PerplexityChat.__init__` credential handling. -/
def perplexityChatInit (env : Option String) : Except String String :=
  credentialInit env "PERPLEXITY_API_KEY nao encontrada no arquivo .env"

/-- `OpenAIChat.__init__` credential handling. -/
def openaiChatInit (env : Option String) : Except String String :=
  credentialInit env "OPENAI_API_KEY nao encontrada"

/-- `PerplexityChat.create_headers`: every request carries the construction
credential as a bearer token. -/
def perplexityCreateHeaders (apiKey : String) : List (String × String) :=
  [("Authorization", "Bearer " ++ apiKey), ("Content-Type", "application/json")]

/-! ## Helper lemmas -/

theorem cfgGet_cfgSet_ne (cfg : Config) (k k2 : String) (v : CVal)
    (h : (k == k2) = false) :
    cfgGet (cfgSet cfg k v) k2 = cfgGet cfg k2 := by
  induction cfg with
  | nil => rfl
  | cons a t ih =>
    by_cases ha : a.1 = k
    · have ha2 : (a.1 == k2) = false := by rw [ha]; exact h
      simp only [cfgSet, List.map_cons] at ih ⊢
      simp only [cfgGet, List.find?, ha, beq_self_eq_true, if_true, h, ha2]
      simpa [cfgSet, cfgGet] using ih
    · have ha1 : (a.1 == k) = false := by
        cases hx : a.1 == k
        · rfl
        · exact absurd (by simpa using hx) ha
      by_cases hb : a.1 = k2
      · have hkne : ¬(k2 = k) := by
          intro hx
          subst hx
          simp at h
        simp [cfgSet, cfgGet, List.find?, ha1, hb, hkne]
      · have hb1 : (a.1 == k2) = false := by
          cases hx : a.1 == k2
          · rfl
          · exact absurd (by simpa using hx) hb
        simp only [cfgSet, List.map_cons, ha1, Bool.false_eq_true, if_false] at ih ⊢
        simp only [cfgGet, List.find?, hb1]
        simpa [cfgSet, cfgGet] using ih

theorem cfgGet_cfgSet_self (cfg : Config) (k : String) (v : CVal)
    (h : cfgHasKey cfg k = true) :
    cfgGet (cfgSet cfg k v) k = v := by
  induction cfg with
  | nil => simp [cfgHasKey] at h
  | cons a t ih =>
    by_cases ha : a.1 = k
    · simp [cfgSet, cfgGet, List.find?, ha]
    · have ha1 : (a.1 == k) = false := by
        cases hx : a.1 == k
        · rfl
        · exact absurd (by simpa using hx) ha
      have h2 : cfgHasKey t k = true := by
        simpa [cfgHasKey, ha1] using h
      simp only [cfgSet, List.map_cons, ha1, Bool.false_eq_true, if_false]
      simp only [cfgGet, List.find?, ha1]
      simpa [cfgSet, cfgGet] using ih h2

theorem runOkSends_length (script : List (String × String × List String)) :
    ∀ hist : Conversation,
      (runOkSends hist script).length = hist.length + 2 * script.length := by
  induction script with
  | nil => intro hist; simp [runOkSends]
  | cons e rest ih =>
    intro hist
    obtain ⟨u, c, cits⟩ := e
    simp only [runOkSends, perplexitySendMessage]
    rw [ih]
    simp [List.length_append]
    omega

theorem geminiRespond_config (cfg : Config) (hist1 : Conversation)
    (transport : Except String (List (List (Option String)))) :
    (geminiRespond cfg hist1 transport).config = cfg := by
  cases transport with
  | error e => rfl
  | ok cands => cases hc : geminiExtract cands <;> simp [geminiRespond, hc]

theorem geminiSendText_config (cfg : Config) (hist : Conversation) (m : String)
    (transport : Except String (List (List (Option String)))) :
    (geminiSendText cfg hist m transport).config = cfg := by
  cases hl : systemMessagesCommon (cfgGet cfg "language") with
  | none => simp [geminiSendText, hl]
  | some s => simp [geminiSendText, hl, geminiRespond_config]

/-! ## Claims -/

/-- C2 (amended): BuildRequest is deterministic; for the OpenAI, Groq and
Perplexity adapters the wire message array is the synthesized system message
(selected by `config.language`) first, followed by the Conversation in
stored order.  The Anthropic adapter does not prepend a system entry: its
message array is exactly the Conversation, and the system prompt travels in
a separate `system` field taken from `config['system']` (not selected by
`language`). -/
theorem requestShape_C2 (cfg : Config) (msgs : Conversation) (s : String)
    (h : systemMessagesCommon (cfgGet cfg "language") = some s) :
    perplexityCreateRequestBody cfg msgs = some (perplexityBodyCore cfg s msgs)
    ∧ bodyLookup (perplexityBodyCore cfg s msgs) "messages"
        = some (WireVal.msgs (⟨Role.system, s, []⟩ :: msgs))
    ∧ openaiCreateChatParams cfg msgs = some (openaiParamsCore cfg s msgs)
    ∧ bodyLookup (openaiParamsCore cfg s msgs) "messages"
        = some (WireVal.msgs (⟨Role.system, s, []⟩ :: msgs))
    ∧ groqCreateChatParams cfg msgs = some (groqParamsCore cfg s msgs)
    ∧ bodyLookup (groqParamsCore cfg s msgs) "messages"
        = some (WireVal.msgs (⟨Role.system, s, []⟩ :: msgs))
    ∧ bodyLookup (anthropicCreateChatParams cfg msgs) "messages"
        = some (WireVal.msgs msgs)
    ∧ bodyLookup (anthropicCreateChatParams cfg msgs) "system"
        = some (cfgGet cfg "system").toWire :=
  ⟨by simp [perplexityCreateRequestBody, h], rfl,
   by simp [openaiCreateChatParams, h], rfl,
   by simp [groqCreateChatParams, h], rfl,
   rfl, rfl⟩

/-- Witness for C2 at the OpenAI default config and an empty conversation. -/
theorem requestShape_C2_witness :
    perplexityCreateRequestBody openaiDefaultConfig []
      = some (perplexityBodyCore openaiDefaultConfig sysMsgPtBr [])
    ∧ bodyLookup (anthropicCreateChatParams openaiDefaultConfig []) "messages"
      = some (WireVal.msgs []) :=
  ⟨(requestShape_C2 openaiDefaultConfig [] sysMsgPtBr (by decide)).1,
   (requestShape_C2 openaiDefaultConfig [] sysMsgPtBr (by decide)).2.2.2.2.2.2.1⟩

/-- C2 counterexample: at the Anthropic default config with a one-message
conversation, the first element of the wire message array is the user
message, not a synthesized system message. -/
theorem requestShape_C2_cex :
    wireFirstRole (anthropicCreateChatParams anthropicDefaultConfig
      [⟨Role.user, "hi", []⟩]) = some Role.user
    ∧ some Role.user ≠ some Role.system := by
  refine ⟨by decide, by decide⟩

/-- C6: for the three adapters whose max-token limit is optional
(Perplexity, OpenAI, Groq: default `None`), the built payload has no
`max_tokens` field when the limit is unset and carries the configured value
when set; Anthropic (whose limit is required and always set) always carries
the configured value. -/
theorem maxTokens_C6 (cfg : Config) (msgs : Conversation) (s : String)
    (h : systemMessagesCommon (cfgGet cfg "language") = some s) :
    perplexityCreateRequestBody cfg msgs = some (perplexityBodyCore cfg s msgs)
    ∧ openaiCreateChatParams cfg msgs = some (openaiParamsCore cfg s msgs)
    ∧ groqCreateChatParams cfg msgs = some (groqParamsCore cfg s msgs)
    ∧ (cfgGet cfg "max_tokens" = CVal.null →
        bodyHasKey (perplexityBodyCore cfg s msgs) "max_tokens" = false
        ∧ bodyHasKey (openaiParamsCore cfg s msgs) "max_tokens" = false
        ∧ bodyHasKey (groqParamsCore cfg s msgs) "max_tokens" = false)
    ∧ (cfgGet cfg "max_tokens" ≠ CVal.null →
        bodyLookup (perplexityBodyCore cfg s msgs) "max_tokens"
          = some (cfgGet cfg "max_tokens").toWire
        ∧ bodyLookup (openaiParamsCore cfg s msgs) "max_tokens"
          = some (cfgGet cfg "max_tokens").toWire
        ∧ bodyLookup (groqParamsCore cfg s msgs) "max_tokens"
          = some (cfgGet cfg "max_tokens").toWire)
    ∧ bodyLookup (anthropicCreateChatParams cfg msgs) "max_tokens"
        = some (cfgGet cfg "max_tokens").toWire := by
  refine ⟨by simp [perplexityCreateRequestBody, h],
          by simp [openaiCreateChatParams, h],
          by simp [groqCreateChatParams, h], ?_, ?_, rfl⟩
  · intro hm
    refine ⟨?_, ?_, ?_⟩
    · cases h2 : (cfgGet cfg "search_recency_filter").truthy <;>
        simp [perplexityBodyCore, bodyHasKey, hm, h2]
    · simp [openaiParamsCore, bodyHasKey, hm]
    · simp [groqParamsCore, bodyHasKey, hm]
  · intro hm
    refine ⟨?_, ?_, ?_⟩
    · cases h2 : (cfgGet cfg "search_recency_filter").truthy <;>
        simp [perplexityBodyCore, bodyLookup, hm, h2]
    · simp [openaiParamsCore, bodyLookup, hm]
    · simp [groqParamsCore, bodyLookup, hm]

/-- Witness for C6: unset limit at the Groq default config (no field),
set limit at a modified config (field with the value). -/
theorem maxTokens_C6_witness :
    bodyHasKey (groqParamsCore groqDefaultConfig sysMsgPtBr []) "max_tokens" = false
    ∧ bodyLookup
        (groqParamsCore (cfgSet groqDefaultConfig "max_tokens" (CVal.int 100)) sysMsgPtBr [])
        "max_tokens"
      = some (cfgGet (cfgSet groqDefaultConfig "max_tokens" (CVal.int 100)) "max_tokens").toWire :=
  ⟨((maxTokens_C6 groqDefaultConfig [] sysMsgPtBr (by decide)).2.2.2.1 (by decide)).2.2,
   ((maxTokens_C6 (cfgSet groqDefaultConfig "max_tokens" (CVal.int 100)) [] sysMsgPtBr
      (by decide)).2.2.2.2.1 (by decide)).2.2⟩

/-- C4 (amended): only the Anthropic and Gemini `update_config` methods
range-check temperature, with bounds [0,1] (not [0,2]); there an
out-of-range value raises and the stored entry is unchanged.  The Perplexity
`config` command handler (like the OpenAI and Groq update paths) performs no
range validation: `temperature=3.5` is accepted and stored as 3.5. -/
theorem rangeCheck_C4 (cfgA cfgG : Config) (v : String) (t : PyFloat)
    (hA : cfgHasKey cfgA "temperature" = true)
    (hG : cfgHasKey cfgG "temperature" = true)
    (hv : pyFloat v = some t)
    (hout : ((PyFloat.ofInt 0).le t && t.le (PyFloat.ofInt 1)) = false) :
    (anthropicUpdateConfig cfgA [("temperature", v)]).err.isSome = true
    ∧ (anthropicUpdateConfig cfgA [("temperature", v)]).config = cfgA
    ∧ (geminiUpdateConfig cfgG [("temperature", v)]).err.isSome = true
    ∧ (geminiUpdateConfig cfgG [("temperature", v)]).config = cfgG
    ∧ (perplexityConfigCmd perplexityDefaultConfig [("temperature", "3.5")]).err = none
    ∧ cfgGet (perplexityConfigCmd perplexityDefaultConfig
        [("temperature", "3.5")]).config "temperature" = CVal.num ⟨35, 1⟩ := by
  refine ⟨?_, ?_, ?_, ?_, by decide, by decide⟩ <;>
    simp [anthropicUpdateConfig, geminiUpdateConfig, updateConfigWith,
          hA, hG, anthropicValidate, geminiValidate, hv, hout]

/-- Witness for C4 at temperature 3.5 against the Anthropic and Gemini
default configs. -/
theorem rangeCheck_C4_witness :
    (anthropicUpdateConfig anthropicDefaultConfig [("temperature", "3.5")]).err.isSome = true
    ∧ (geminiUpdateConfig geminiDefaultConfig [("temperature", "3.5")]).config
        = geminiDefaultConfig :=
  ⟨(rangeCheck_C4 anthropicDefaultConfig geminiDefaultConfig "3.5" ⟨35, 1⟩
      (by decide) (by decide) (by decide) (by decide)).1,
   (rangeCheck_C4 anthropicDefaultConfig geminiDefaultConfig "3.5" ⟨35, 1⟩
      (by decide) (by decide) (by decide) (by decide)).2.2.2.1⟩

/-- C4 counterexample: the Perplexity `config` command handler accepts
`temperature=3.5` — no `ConfigInvalid`, and the stored value changes from
0.2 to 3.5. -/
theorem rangeCheck_C4_cex :
    (perplexityConfigCmd perplexityDefaultConfig [("temperature", "3.5")]).err = none
    ∧ cfgGet (perplexityConfigCmd perplexityDefaultConfig
        [("temperature", "3.5")]).config "temperature" = CVal.num ⟨35, 1⟩
    ∧ CVal.num ⟨35, 1⟩ ≠ CVal.num ⟨2, 1⟩ := by
  refine ⟨by decide, by decide, by decide⟩

/-- C5 (amended): the per-key CLI handler of Perplexity (and OpenAI) stores
the value coerced to its declared kind, so a valid numeric update reads back
as a number; the `update_config` methods of Anthropic (and Gemini, Groq)
validate but store the RAW string, so even a valid numeric update reads back
as the uncoerced string.  On both paths an invalid value leaves the config
entry unchanged and reports an error. -/
theorem readback_C5 (v w : String) (q : PyFloat)
    (hv : pyFloat v = some q)
    (hc : ((PyFloat.ofInt 0).le q && q.le (PyFloat.ofInt 1)) = true)
    (hw : pyFloat w = none) :
    (perplexityConfigCmd perplexityDefaultConfig [("temperature", v)]).err = none
    ∧ cfgGet (perplexityConfigCmd perplexityDefaultConfig
        [("temperature", v)]).config "temperature" = CVal.num q
    ∧ (anthropicUpdateConfig anthropicDefaultConfig [("temperature", v)]).err = none
    ∧ cfgGet (anthropicUpdateConfig anthropicDefaultConfig
        [("temperature", v)]).config "temperature" = CVal.str v
    ∧ (anthropicUpdateConfig anthropicDefaultConfig [("temperature", w)]).config
        = anthropicDefaultConfig
    ∧ (anthropicUpdateConfig anthropicDefaultConfig [("temperature", w)]).err.isSome = true
    ∧ (perplexityConfigCmd perplexityDefaultConfig [("temperature", w)]).config
        = perplexityDefaultConfig
    ∧ (perplexityConfigCmd perplexityDefaultConfig [("temperature", w)]).err.isSome = true := by
  refine ⟨?_, ?_, ?_, ?_, ?_, ?_, ?_, ?_⟩ <;>
    simp [perplexityConfigCmd, perplexityCoerce, anthropicUpdateConfig,
          updateConfigWith, anthropicValidate, hv, hc, hw, cfgHasKey,
          perplexityDefaultConfig, anthropicDefaultConfig, cfgSet, cfgGet,
          List.find?]

/-- Witness for C5 at temperature 0.5 (valid) and `abc` (invalid). -/
theorem readback_C5_witness :
    cfgGet (perplexityConfigCmd perplexityDefaultConfig
        [("temperature", "0.5")]).config "temperature" = CVal.num ⟨5, 1⟩
    ∧ cfgGet (anthropicUpdateConfig anthropicDefaultConfig
        [("temperature", "0.5")]).config "temperature" = CVal.str "0.5"
    ∧ (anthropicUpdateConfig anthropicDefaultConfig [("temperature", "abc")]).config
        = anthropicDefaultConfig :=
  ⟨(readback_C5 "0.5" "abc" ⟨5, 1⟩ (by decide) (by decide) (by decide)).2.1,
   (readback_C5 "0.5" "abc" ⟨5, 1⟩ (by decide) (by decide) (by decide)).2.2.2.1,
   (readback_C5 "0.5" "abc" ⟨5, 1⟩ (by decide) (by decide) (by decide)).2.2.2.2.1⟩

/-- C5 counterexample: the Anthropic `update_config` accepts
`temperature=0.5` but the stored entry is the raw string `"0.5"`, not a
number — reading it back does not yield the value coerced to the declared
numeric kind. -/
theorem readback_C5_cex :
    (anthropicUpdateConfig anthropicDefaultConfig [("temperature", "0.5")]).err = none
    ∧ cfgGet (anthropicUpdateConfig anthropicDefaultConfig
        [("temperature", "0.5")]).config "temperature" = CVal.str "0.5"
    ∧ CVal.isNum (CVal.str "0.5") = false := by
  refine ⟨by decide, by decide, by decide⟩

/-- C3 (amended): when the invalid entry is an UNKNOWN key, it is warned
and skipped and the valid key applies in either order.  When the invalid
entry is a known key with an invalid VALUE, the raised `ValueError` aborts
the batch: the valid key is applied only if it precedes the invalid entry;
if it follows it, both the valid assignment is lost and only the error is
reported. -/
theorem batchKeys_C3 (u : String)
    (hu : cfgHasKey anthropicDefaultConfig u = false) :
    (cfgGet (anthropicUpdateConfig anthropicDefaultConfig
        [(u, "1"), ("temperature", "0.5")]).config "temperature" = CVal.str "0.5"
      ∧ (anthropicUpdateConfig anthropicDefaultConfig
          [(u, "1"), ("temperature", "0.5")]).ignored = [u]
      ∧ (anthropicUpdateConfig anthropicDefaultConfig
          [(u, "1"), ("temperature", "0.5")]).err = none)
    ∧ (cfgGet (anthropicUpdateConfig anthropicDefaultConfig
        [("temperature", "0.5"), (u, "1")]).config "temperature" = CVal.str "0.5"
      ∧ (anthropicUpdateConfig anthropicDefaultConfig
          [("temperature", "0.5"), (u, "1")]).ignored = [u]
      ∧ (anthropicUpdateConfig anthropicDefaultConfig
          [("temperature", "0.5"), (u, "1")]).err = none)
    ∧ (cfgGet (anthropicUpdateConfig anthropicDefaultConfig
        [("temperature", "0.5"), ("model", "bogus")]).config "temperature" = CVal.str "0.5"
      ∧ (anthropicUpdateConfig anthropicDefaultConfig
          [("temperature", "0.5"), ("model", "bogus")]).err.isSome = true)
    ∧ ((anthropicUpdateConfig anthropicDefaultConfig
        [("model", "bogus"), ("temperature", "0.5")]).config = anthropicDefaultConfig
      ∧ (anthropicUpdateConfig anthropicDefaultConfig
          [("model", "bogus"), ("temperature", "0.5")]).err.isSome = true) := by
  have h1 : cfgHasKey anthropicDefaultConfig "temperature" = true := by decide
  have h2 : anthropicValidate "temperature" "0.5" = none := by decide
  have hu2 : cfgHasKey (cfgSet anthropicDefaultConfig "temperature" (CVal.str "0.5")) u = false := hu
  have e1 : anthropicUpdateConfig anthropicDefaultConfig [(u, "1"), ("temperature", "0.5")]
      = ⟨cfgSet anthropicDefaultConfig "temperature" (CVal.str "0.5"), [u], none⟩ := by
    simp [anthropicUpdateConfig, updateConfigWith, hu, h1, h2]
  have e2 : anthropicUpdateConfig anthropicDefaultConfig [("temperature", "0.5"), (u, "1")]
      = ⟨cfgSet anthropicDefaultConfig "temperature" (CVal.str "0.5"), [u], none⟩ := by
    simp [anthropicUpdateConfig, updateConfigWith, hu2, h1, h2]
  have hget : cfgGet (cfgSet anthropicDefaultConfig "temperature" (CVal.str "0.5")) "temperature"
      = CVal.str "0.5" := by decide
  rw [e1, e2]
  exact ⟨⟨hget, rfl, rfl⟩, ⟨hget, rfl, rfl⟩,
    ⟨by decide, by decide⟩, ⟨by decide, by decide⟩⟩

/-- Witness for C3 at the unknown key `foo`. -/
theorem batchKeys_C3_witness :
    cfgGet (anthropicUpdateConfig anthropicDefaultConfig
        [("foo", "1"), ("temperature", "0.5")]).config "temperature" = CVal.str "0.5"
    ∧ (anthropicUpdateConfig anthropicDefaultConfig
        [("foo", "1"), ("temperature", "0.5")]).ignored = ["foo"] :=
  ⟨(batchKeys_C3 "foo" (by decide)).1.1, (batchKeys_C3 "foo" (by decide)).1.2.1⟩

/-- C3 counterexample: a batch whose first entry is a known key with an
invalid value (`model=bogus`) followed by a valid entry
(`temperature=0.5`) leaves the config entirely unchanged — the valid key is
blocked, so validity of the outcome is NOT independent of batch order. -/
theorem batchKeys_C3_cex :
    (anthropicUpdateConfig anthropicDefaultConfig
        [("model", "bogus"), ("temperature", "0.5")]).config = anthropicDefaultConfig
    ∧ (anthropicUpdateConfig anthropicDefaultConfig
        [("model", "bogus"), ("temperature", "0.5")]).err.isSome = true
    ∧ cfgGet anthropicDefaultConfig "temperature" ≠ CVal.str "0.5" := by
  refine ⟨by decide, by decide, by decide⟩

/-- C1 (amended): starting from an empty Conversation, N successful `Send`
calls leave exactly 2N entries (user/assistant pairs; the synthesized system
message exists only on the wire, so the persisted count is 2N, not 1 + 2N).
A failed `Send` grows the Conversation by exactly 1 (the user message) when
the failure arises at or after dispatch; the Gemini failures raised BEFORE
the user message is appended (unknown language on the text path, image
processing failure) grow it by 0. -/
theorem historyGrowth_C1 (script : List (String × String × List String))
    (hist : Conversation) (u e ie p s : String) (cfg cfg2 : Config)
    (imageRes : Except String (String × String))
    (transport : Except String (List (List (Option String))))
    (hs : systemMessagesCommon (cfgGet cfg "language") = some s)
    (hn : systemMessagesCommon (cfgGet cfg2 "language") = none)
    (hp : p ≠ "") :
    (runOkSends [] script).length = 2 * script.length
    ∧ (perplexitySendMessage hist u (.error e)).hist.length = hist.length + 1
    ∧ (geminiSendMessage cfg hist u none imageRes (.error e)).hist.length = hist.length + 1
    ∧ (geminiSendMessage cfg2 hist u none imageRes transport).hist = hist
    ∧ (geminiSendMessage cfg hist u (some p) (.error ie) transport).hist = hist := by
  refine ⟨?_, ?_, ?_, ?_, ?_⟩
  · have := runOkSends_length script []
    simpa using this
  · simp [perplexitySendMessage]
  · simp [geminiSendMessage, geminiSendText, hs, geminiRespond]
  · simp [geminiSendMessage, geminiSendText, hn]
  · simp [geminiSendMessage, hp]

/-- Witness for C1 at a one-entry script, the Gemini default config
(`pt-br`), and a config whose language is `fr`. -/
theorem historyGrowth_C1_witness :
    (runOkSends [] [("a", "b", [])]).length = 2 * 1
    ∧ (geminiSendMessage (cfgSet geminiDefaultConfig "language" (CVal.str "fr"))
        [] "hi" none (.error "i") (.error "net")).hist = [] :=
  ⟨(historyGrowth_C1 [("a", "b", [])] [] "hi" "net" "i" "x" sysMsgPtBr
      geminiDefaultConfig (cfgSet geminiDefaultConfig "language" (CVal.str "fr"))
      (.error "i") (.error "net") (by decide) (by decide) (by decide)).1,
   (historyGrowth_C1 [("a", "b", [])] [] "hi" "net" "i" "x" sysMsgPtBr
      geminiDefaultConfig (cfgSet geminiDefaultConfig "language" (CVal.str "fr"))
      (.error "i") (.error "net") (by decide) (by decide) (by decide)).2.2.2.1⟩

/-- C1 counterexample: one successful send from an empty Conversation leaves
2 entries, not 1 + 2·1 = 3; and a Gemini send whose image processing fails
grows the Conversation by 0, not 1. -/
theorem historyGrowth_C1_cex :
    (runOkSends [] [("hello", "Hi", [])]).length = 2
    ∧ 2 ≠ 1 + 2 * 1
    ∧ (geminiSendMessage geminiDefaultConfig [] "hi" (some "img.png")
        (.error "bad image") (.error "net")).hist.length = 0 := by
  refine ⟨by decide, by decide, by decide⟩

/-- C7 (amended): the streaming loops have no truncation detection.  When
the chunk sequence ends without any terminal event, the concatenation of the
deltas received so far is returned as a SUCCESSFUL message and appended to
the history (OpenAI and Groq); there is no `StreamTruncated` outcome.  Groq
alone returns an error dict if iterating the stream raises, discarding the
partial text from the result and appending no assistant message. -/
theorem streamEnd_C7 (hist : Conversation) (m e : String) (chunks : List StreamChunk) :
    openaiSendMessageStream hist m (.ok chunks)
      = ⟨(hist ++ [⟨Role.user, m, []⟩]) ++ [⟨Role.assistant, streamAccumulate chunks, []⟩],
         [("content", .str (streamAccumulate chunks)), ("citations", .strs [])]⟩
    ∧ groqSendMessageStream hist m (.ok (chunks, none))
      = ⟨(hist ++ [⟨Role.user, m, []⟩]) ++ [⟨Role.assistant, streamAccumulate chunks, []⟩],
         [("response", .str (streamAccumulate chunks)),
          ("conversation_history",
            WireVal.msgs ((hist ++ [⟨Role.user, m, []⟩])
              ++ [⟨Role.assistant, streamAccumulate chunks, []⟩]))]⟩
    ∧ groqSendMessageStream hist m (.ok (chunks, some e))
      = ⟨hist ++ [⟨Role.user, m, []⟩], [("error", .str e)]⟩ :=
  ⟨rfl, rfl, rfl⟩

/-- C7 counterexample: a chunk sequence consisting of a single delta and no
terminal event yields a success return carrying the partial text `"Hi"`
(no `error` key, assistant message appended) — not a `StreamTruncated`
failure. -/
theorem streamEnd_C7_cex :
    bodyHasKey (openaiSendMessageStream [] "hello"
      (.ok [⟨some "Hi"⟩])).ret "error" = false
    ∧ bodyLookup (openaiSendMessageStream [] "hello"
      (.ok [⟨some "Hi"⟩])).ret "content" = some (WireVal.str "Hi")
    ∧ (openaiSendMessageStream [] "hello" (.ok [⟨some "Hi"⟩])).hist.length = 2 := by
  refine ⟨by decide, by decide, by decide⟩

/-- C8: a falsy credential value (absent, or empty) at construction makes
`__init__` raise before any session exists — the `Except.error` result
carries no session; a successfully constructed session owns a nonempty key,
equal to the environment value, which every Perplexity request carries in
its authorization header.  Credential absence is thus decided at
construction, never first at request time. -/
theorem credential_C8 (env env2 : Option String) (k k2 : String)
    (hp : perplexityChatInit env = .ok k)
    (ho : openaiChatInit env2 = .ok k2) :
    (perplexityChatInit none).isOk = false
    ∧ (openaiChatInit none).isOk = false
    ∧ k ≠ "" ∧ env = some k
    ∧ ("Authorization", "Bearer " ++ k) ∈ perplexityCreateHeaders k
    ∧ k2 ≠ "" ∧ env2 = some k2 := by
  refine ⟨by decide, by decide, ?_, ?_, ?_, ?_, ?_⟩
  · cases env with
    | none => simp [perplexityChatInit, credentialInit] at hp
    | some a =>
      by_cases ha : a = ""
      · simp [perplexityChatInit, credentialInit, ha] at hp
      · have : a = k := by simpa [perplexityChatInit, credentialInit, ha] using hp
        subst this
        exact ha
  · cases env with
    | none => simp [perplexityChatInit, credentialInit] at hp
    | some a =>
      by_cases ha : a = ""
      · simp [perplexityChatInit, credentialInit, ha] at hp
      · have : a = k := by simpa [perplexityChatInit, credentialInit, ha] using hp
        subst this
        rfl
  · simp [perplexityCreateHeaders]
  · cases env2 with
    | none => simp [openaiChatInit, credentialInit] at ho
    | some a =>
      by_cases ha : a = ""
      · simp [openaiChatInit, credentialInit, ha] at ho
      · have : a = k2 := by simpa [openaiChatInit, credentialInit, ha] using ho
        subst this
        exact ha
  · cases env2 with
    | none => simp [openaiChatInit, credentialInit] at ho
    | some a =>
      by_cases ha : a = ""
      · simp [openaiChatInit, credentialInit, ha] at ho
      · have : a = k2 := by simpa [openaiChatInit, credentialInit, ha] using ho
        subst this
        rfl

/-- Witness for C8 at a present credential. -/
theorem credential_C8_witness :
    (perplexityChatInit none).isOk = false
    ∧ (openaiChatInit none).isOk = false :=
  ⟨(credential_C8 (some "sk-test") (some "sk-test") "sk-test" "sk-test"
      rfl rfl).1,
   (credential_C8 (some "sk-test") (some "sk-test") "sk-test" "sk-test"
      rfl rfl).2.1⟩

/-- C9 (amended): a TRUTHY `image_path` (non-`None` and non-empty — the
source tests truthiness) makes `GeminiChat.send_message` overwrite
`current_config['model']` with `gemini-1.5-flash-8b` before building the
request, touching no other key; the overwrite persists, and a subsequent
text send leaves the config (including the switched model) unchanged.  A
`None` image path leaves the config untouched. -/
theorem imageModel_C9 (cfg : Config) (hist hist2 : Conversation) (m m2 p k : String)
    (imageRes imageRes2 : Except String (String × String))
    (transport tr2 : Except String (List (List (Option String))))
    (hp : p ≠ "") (hk : ("model" == k) = false)
    (hm : cfgHasKey cfg "model" = true) :
    (geminiSendMessage cfg hist m (some p) imageRes transport).config
      = cfgSet cfg "model" (CVal.str "gemini-1.5-flash-8b")
    ∧ cfgGet (geminiSendMessage cfg hist m (some p) imageRes transport).config "model"
      = CVal.str "gemini-1.5-flash-8b"
    ∧ cfgGet (geminiSendMessage cfg hist m (some p) imageRes transport).config k
      = cfgGet cfg k
    ∧ (geminiSendMessage cfg hist m none imageRes transport).config = cfg
    ∧ (geminiSendMessage
        (geminiSendMessage cfg hist m (some p) imageRes transport).config
        hist2 m2 none imageRes2 tr2).config
      = cfgSet cfg "model" (CVal.str "gemini-1.5-flash-8b") := by
  have hc : (geminiSendMessage cfg hist m (some p) imageRes transport).config
      = cfgSet cfg "model" (CVal.str "gemini-1.5-flash-8b") := by
    cases imageRes with
    | error ie => simp [geminiSendMessage, hp]
    | ok img => simp [geminiSendMessage, hp, geminiRespond_config]
  refine ⟨hc, ?_, ?_, ?_, ?_⟩
  · rw [hc]
    exact cfgGet_cfgSet_self cfg "model" _ hm
  · rw [hc]
    exact cfgGet_cfgSet_ne cfg "model" k _ hk
  · simp [geminiSendMessage, geminiSendText_config]
  · rw [hc]
    simp [geminiSendMessage, geminiSendText_config]

/-- Witness for C9 at the Gemini default config, path `img.png`, and the
untouched key `temperature`. -/
theorem imageModel_C9_witness :
    cfgGet (geminiSendMessage geminiDefaultConfig [] "hi" (some "img.png")
        (.error "bad") (.error "net")).config "model"
      = CVal.str "gemini-1.5-flash-8b"
    ∧ cfgGet (geminiSendMessage geminiDefaultConfig [] "hi" (some "img.png")
        (.error "bad") (.error "net")).config "temperature"
      = cfgGet geminiDefaultConfig "temperature" :=
  ⟨(imageModel_C9 geminiDefaultConfig [] [] "hi" "m2" "img.png" "temperature"
      (.error "bad") (.error "bad2") (.error "net") (.error "net2")
      (by decide) (by decide) (by decide)).2.1,
   (imageModel_C9 geminiDefaultConfig [] [] "hi" "m2" "img.png" "temperature"
      (.error "bad") (.error "bad2") (.error "net") (.error "net2")
      (by decide) (by decide) (by decide)).2.2.1⟩

/-- C9 counterexample: `image_path` equal to the empty string is non-`None`,
yet the model is NOT overwritten (the source tests truthiness, not
`is not None`): the config is returned unchanged. -/
theorem imageModel_C9_cex :
    (geminiSendMessage geminiDefaultConfig [] "hi" (some "") (.error "x")
      (.error "net")).config = geminiDefaultConfig
    ∧ cfgGet (geminiSendMessage geminiDefaultConfig [] "hi" (some "") (.error "x")
        (.error "net")).config "model" = CVal.str "gemini-1.5-pro"
    ∧ CVal.str "gemini-1.5-pro" ≠ CVal.str "gemini-1.5-flash-8b" := by
  refine ⟨by decide, by decide, by decide⟩

/-- C10: for every modelled provider send (Perplexity, OpenAI and Groq
streaming, Anthropic, Gemini text path), the returned dict contains the
`error` key exactly when the exchange failed — equivalently, exactly when no
assistant message was appended (final history shorter than start + 2) — and
on success the assistant content sits under the provider's content key
(`content` or `response`), never under `error`. -/
theorem errorKey_C10 (hist : Conversation) (m c e se t : String) (cits : List String)
    (chunks : List StreamChunk) (cfg : Config)
    (cands : List (List (Option String)))
    (po : Except String (String × List String))
    (oc : Except String (List StreamChunk))
    (gq : Except String (List StreamChunk × Option String))
    (ao : Except String String)
    (ir : Except String (String × String))
    (gtr : Except String (List (List (Option String))))
    (he : geminiExtract cands = some t) :
    (bodyHasKey (perplexitySendMessage hist m po).ret "error" = true
      ↔ (perplexitySendMessage hist m po).hist.length < hist.length + 2)
    ∧ bodyHasKey (perplexitySendMessage hist m (.ok (c, cits))).ret "error" = false
    ∧ bodyLookup (perplexitySendMessage hist m (.ok (c, cits))).ret "content"
        = some (WireVal.str c)
    ∧ bodyHasKey (perplexitySendMessage hist m (.error e)).ret "error" = true
    ∧ (bodyHasKey (openaiSendMessageStream hist m oc).ret "error" = true
      ↔ (openaiSendMessageStream hist m oc).hist.length < hist.length + 2)
    ∧ bodyHasKey (openaiSendMessageStream hist m (.ok chunks)).ret "error" = false
    ∧ bodyLookup (openaiSendMessageStream hist m (.ok chunks)).ret "content"
        = some (WireVal.str (streamAccumulate chunks))
    ∧ (bodyHasKey (groqSendMessageStream hist m gq).ret "error" = true
      ↔ (groqSendMessageStream hist m gq).hist.length < hist.length + 2)
    ∧ bodyHasKey (groqSendMessageStream hist m (.ok (chunks, some se))).ret "error" = true
    ∧ (bodyHasKey (anthropicSendMessage hist m ao).ret "error" = true
      ↔ (anthropicSendMessage hist m ao).hist.length < hist.length + 2)
    ∧ bodyLookup (anthropicSendMessage hist m (.ok c)).ret "response"
        = some (WireVal.str c)
    ∧ (bodyHasKey (geminiSendMessage cfg hist m none ir gtr).ret "error" = true
      ↔ (geminiSendMessage cfg hist m none ir gtr).hist.length < hist.length + 2)
    ∧ bodyLookup (geminiSendMessage geminiDefaultConfig hist m none ir
        (.ok cands)).ret "response" = some (WireVal.str t) := by
  refine ⟨?_, by simp [perplexitySendMessage, bodyHasKey], rfl,
          by simp [perplexitySendMessage, bodyHasKey],
          ?_, by simp [openaiSendMessageStream, bodyHasKey], rfl,
          ?_, by simp [groqSendMessageStream, bodyHasKey],
          ?_, rfl, ?_, ?_⟩
  · cases po with
    | ok pr =>
      obtain ⟨c1, cits1⟩ := pr
      simp [perplexitySendMessage, bodyHasKey]
    | error e1 => simp [perplexitySendMessage, bodyHasKey]
  · cases oc with
    | ok ch => simp [openaiSendMessageStream, bodyHasKey]
    | error e1 => simp [openaiSendMessageStream, bodyHasKey]
  · cases gq with
    | ok pr =>
      obtain ⟨ch, serr⟩ := pr
      cases serr with
      | none => simp [groqSendMessageStream, bodyHasKey]
      | some e1 => simp [groqSendMessageStream, bodyHasKey]
    | error e1 => simp [groqSendMessageStream, bodyHasKey]
  · cases ao with
    | ok c1 => simp [anthropicSendMessage, bodyHasKey]
    | error e1 => simp [anthropicSendMessage, bodyHasKey]
  · cases hl : systemMessagesCommon (cfgGet cfg "language") with
    | none => simp [geminiSendMessage, geminiSendText, hl, bodyHasKey]
    | some s1 =>
      cases gtr with
      | error e1 => simp [geminiSendMessage, geminiSendText, hl, geminiRespond, bodyHasKey]
      | ok cands1 =>
        cases hx : geminiExtract cands1 with
        | none => simp [geminiSendMessage, geminiSendText, hl, geminiRespond, hx, bodyHasKey]
        | some t1 => simp [geminiSendMessage, geminiSendText, hl, geminiRespond, hx, bodyHasKey]
  · have hl : systemMessagesCommon (cfgGet geminiDefaultConfig "language")
        = some sysMsgPtBr := by decide
    simp [geminiSendMessage, geminiSendText, hl, geminiRespond, he, bodyLookup]

/-- Witness for C10 at a response body with one candidate carrying the text
`"ok"`. -/
theorem errorKey_C10_witness :
    bodyHasKey (perplexitySendMessage [] "hi" (.ok ("ok", []))).ret "error" = false
    ∧ bodyLookup (geminiSendMessage geminiDefaultConfig [] "hi" none
        (.error "i") (.ok [[some "ok"]])).ret "response" = some (WireVal.str "ok") :=
  ⟨(errorKey_C10 [] "hi" "ok" "e" "se" "ok" [] [] geminiDefaultConfig
      [[some "ok"]] (.ok ("ok", [])) (.ok []) (.ok ([], none)) (.ok "ok")
      (.error "i") (.ok [[some "ok"]]) (by decide)).2.1,
   (errorKey_C10 [] "hi" "ok" "e" "se" "ok" [] [] geminiDefaultConfig
      [[some "ok"]] (.ok ("ok", [])) (.ok []) (.ok ([], none)) (.ok "ok")
      (.error "i") (.ok [[some "ok"]]) (by decide)).2.2.2.2.2.2.2.2.2.2.2.2⟩

end AIChat
